import Mathlib

/-
Verification of the goWake Wake-on-LAN library (src/wol.go) against its
natural-language specification.

The Go code is shallowly embedded: bytes are `Nat` (well-formed octets are
`< 256`), byte slices are `List Nat`, fallible operations return
`Except GoError`, and each networking entry point is a Lean function over an
explicit environment `NetEnv` that fixes what the OS would answer during one
run (interface table, socket calls, the echo reply).  A run produces an
`Outcome` — `ok`, `err`, or `panics` (a Go runtime panic, e.g. a failed
single-value type assertion or an out-of-range index) — together with a trace
of `Event`s recording, in order, the externally visible steps the code took
(address resolution, dialing, MAC parsing, writes, the read deadline, the
read).
-/

namespace GoWake

/-- A byte, modelled as a natural number; well-formed octets are `< 256`. -/
abbrev Byte := Nat

/-- The error values the library can return, one constructor per kind in the
spec's taxonomy, plus `wrapped` for `errors.Join`-style context wrapping. -/
inductive GoError where
  | invalidAddressFormat (s : String)
  | interfaceNotFound (ifaceName : String)
  | noAddressForInterface (ifaceName : String)
  | noIPv4Address (ifaceName : String)
  | socketError (msg : String)
  | shortWrite (actual expected : Nat)
  | noEchoResponse
  | echoMismatch
  | unsupportedProtocol
  | wrapped (msg : String) (inner : GoError)
deriving DecidableEq, Repr

/-- Outcome of running a piece of Go code: a value, a returned error, or a
runtime panic (which aborts the process instead of returning). -/
inductive Outcome (α : Type) where
  | ok : α → Outcome α
  | err : GoError → Outcome α
  | panics : String → Outcome α
deriving DecidableEq, Repr

/-- Externally visible steps of a send, recorded in execution order. -/
inductive Event where
  | resolveIface (ifaceName : String)
  | resolveDest (addr : String)
  | dialUDP (dest : String)
  | dialIP (dest : List Byte)
  | parseMAC (mac : String)
  | writeData (data : List Byte)
  | setDeadline (seconds : Nat)
  | readReply
deriving DecidableEq, Repr

/-- The dynamic value held by the `net.Addr` local-address variable in
`SendWithInterface`: either a `*net.UDPAddr` or a `*net.IPAddr`. -/
inductive LocalAddr where
  | udpAddr (ip : List Byte)
  | ipAddr (ip : List Byte)
deriving DecidableEq, Repr

/-- An element of an interface's OS-provided address list: a `*net.IPNet`
(address plus mask) or some other `net.Addr` implementation. -/
inductive GoAddr where
  | ipNet (ip : List Byte) (mask : List Byte)
  | other
deriving DecidableEq, Repr

/-- One entry of the OS interface table: its name, whether `Addrs()` errors,
and the address list it returns. -/
structure OSIface where
  ifaceName : String
  addrsErr : Option GoError
  addrs : List GoAddr
deriving DecidableEq, Repr

/-- The `*net.IPNet` value returned by `ipFromInterface`. -/
structure IPNet where
  ip : List Byte
  mask : List Byte
deriving DecidableEq, Repr

/-- The environment of one run: the OS interface table and the (deterministic,
for this run) answers of the socket layer. -/
structure NetEnv where
  interfaces : List OSIface
  resolveUDPAddr : String → Except GoError Unit
  dialUDP : List Byte → String → Except GoError Unit
  writeUDP : List Byte → Except GoError Nat
  dialIP : List Byte → List Byte → Except GoError Unit
  writeIP : List Byte → Except GoError Nat
  readReply : Except GoError (List Byte)

deriving instance DecidableEq for Except

/-- `DefaultPort = 9` (wol.go line 12). -/
def DefaultPort : Nat := 9

/-- `DefaultBroadcast = []byte{0xFF, 0xFF, 0xFF, 0xFF}` (wol.go line 13). -/
def DefaultBroadcast : List Byte := [0xFF, 0xFF, 0xFF, 0xFF]

/-- `type Protocol int` (wol.go line 17). -/
abbrev Protocol := Int

/-- `Discard Protocol = iota` = 0 (wol.go line 20). -/
def Discard : Protocol := 0

/-- `Echo` = 1 (wol.go line 21). -/
def Echo : Protocol := 1

/-- Dotted-decimal rendering of an IPv4 `net.IP`, as `broadcastAddr.String()`
produces for the 4-byte addresses this library builds. -/
def ipString (ip : List Byte) : String :=
  String.intercalate "." (ip.map (fun b => toString b))

/-- The `"%s:%d"` destination string built in `sendUDPDiscard` (wol.go
line 62) from the broadcast address and `DefaultPort`. -/
def discardDest (broadcastAddr : List Byte) : String :=
  ipString broadcastAddr ++ ":" ++ toString DefaultPort

/-- Value of one hexadecimal digit, case-insensitive. -/
def hexVal (c : Char) : Option Nat :=
  if '0' ≤ c ∧ c ≤ '9' then some (c.toNat - '0'.toNat)
  else if 'a' ≤ c ∧ c ≤ 'f' then some (c.toNat - 'a'.toNat + 10)
  else if 'A' ≤ c ∧ c ≤ 'F' then some (c.toNat - 'A'.toNat + 10)
  else none

/-- Pair up a list of hex-digit values into bytes (high digit first). -/
def pairBytes : List Nat → List Byte
  | a :: b :: rest => (16 * a + b) :: pairBytes rest
  | _ => []

/-- Modelled from the spec: the MacAddress codec (spec section 4.1) is not in
src/ (only its callers are).  It strips the separators `:` and `-`, accepts
hexadecimal octet pairs case-insensitively, and fails with
`InvalidAddressFormat` unless the string decodes to exactly 6 octets. -/
def parseMacAddress (s : String) : Except GoError (List Byte) :=
  match (s.data.filter (fun c => c != ':' && c != '-')).mapM hexVal with
  | none => .error (.invalidAddressFormat s)
  | some ds =>
    if ds.length = 12 then .ok (pairBytes ds)
    else .error (.invalidAddressFormat s)

/-- Modelled from the spec: the MagicPacket type (spec section 3) is not in
src/ (only its callers are).  It carries the parsed 6-byte MAC address. -/
structure MagicPacket where
  mac : List Byte
deriving DecidableEq, Repr

/-- Modelled from the spec: `NewMagicPacket` (called at wol.go lines 73 and
98) is not in src/.  It parses the MAC string and wraps it in a
`MagicPacket`, failing with `InvalidAddressFormat` on malformed input. -/
def NewMagicPacket (mac : String) : Except GoError MagicPacket :=
  match parseMacAddress mac with
  | .error e => .error e
  | .ok bs => .ok ⟨bs⟩

/-- Modelled from the spec: `Marshal` (called at wol.go lines 78 and 103) is
not in src/.  Per spec section 4.2 it is a pure, total encoder: 6 bytes of
`0xFF` followed by the MAC repeated 16 times. -/
def MagicPacket.Marshal (p : MagicPacket) : List Byte :=
  List.replicate 6 0xFF ++ (List.replicate 16 p.mac).flatten

/-- The per-octet loop of `subnetBroadcastIP` (wol.go lines 156-159): walks
the IP, reading `byteMask[i]` at each index; `none` models the index-range
panic raised when the mask is exhausted before the IP. -/
def broadcastOctets : List Byte → List Byte → Option (List Byte)
  | [], _ => some []
  | a :: as, m :: ms =>
    (broadcastOctets as ms).map (fun r => ((a &&& m) ||| (m ^^^ 0xFF)) :: r)
  | _ :: _, [] => none

/-- `subnetBroadcastIP` (wol.go lines 151-162): per-octet
`ip[i] & mask[i] | (mask[i] ^ 0xff)`; the only non-`ok` outcome is the
runtime panic when the mask is shorter than the IP (the function itself
always returns a `nil` error). -/
def subnetBroadcastIP (ip mask : List Byte) : Outcome (List Byte) :=
  match broadcastOctets ip mask with
  | some r => .ok r
  | none => .panics "runtime error: index out of range"

/-- `net.IP.To4` of the standard library (a collaborator consumed as a black
box): a 4-byte address as-is, a 16-byte IPv4-mapped address reduced to its
last 4 bytes, anything else `none`. -/
def to4 (ip : List Byte) : Option (List Byte) :=
  if ip.length = 4 then some ip
  else if ip.length = 16 ∧ ip.take 10 = List.replicate 10 0 ∧
      ip.getD 10 0 = 0xFF ∧ ip.getD 11 0 = 0xFF then
    some (ip.drop 12)
  else none

/-- The 16-byte IPv6 loopback address `::1`. -/
def ipv6Loopback : List Byte := List.replicate 15 0 ++ [1]

/-- `net.IP.IsLoopback` of the standard library: first octet 127 in the
4-byte form, or equality with `::1`. -/
def isLoopback (ip : List Byte) : Bool :=
  match to4 ip with
  | some ip4 => ip4.getD 0 0 == 127
  | none => ip == ipv6Loopback

/-- The filter of the loop in `ipFromInterface` (wol.go line 142): the entry
is a `*net.IPNet`, not loopback, and has an IPv4 form. -/
def qualifiesIPv4 : GoAddr → Bool
  | .ipNet ip _ => !(isLoopback ip) && (to4 ip).isSome
  | .other => false

/-- `ipFromInterface` (wol.go lines 130-148): look the interface up by name,
fail when its address list errors or is empty, then return the first
qualifying `*net.IPNet`. -/
def ipFromInterface (tbl : List OSIface) (ifaceName : String) :
    Except GoError IPNet :=
  match tbl.find? (fun i => i.ifaceName == ifaceName) with
  | none => .error (.interfaceNotFound ifaceName)
  | some iface =>
    if iface.addrsErr.isSome || iface.addrs.isEmpty then
      .error (.noAddressForInterface iface.ifaceName)
    else
      match iface.addrs.find? qualifiesIPv4 with
      | some (.ipNet ip mask) => .ok ⟨ip, mask⟩
      | some .other => .error (.noIPv4Address iface.ifaceName)
      | none => .error (.noIPv4Address iface.ifaceName)

/-- The single-value type assertion `localAddr.(*net.UDPAddr)` (wol.go
line 67): panics when the interface value is nil or holds another type. -/
def assertUDPAddr : Option LocalAddr → Outcome (List Byte)
  | some (.udpAddr ip) => .ok ip
  | some (.ipAddr _) =>
    .panics "interface conversion: net.Addr is *net.IPAddr, not *net.UDPAddr"
  | none => .panics "interface conversion: interface is nil, not *net.UDPAddr"

/-- The single-value type assertion `localAddr.(*net.IPAddr)` (wol.go
line 92): panics when the interface value is nil or holds another type. -/
def assertIPAddr : Option LocalAddr → Outcome (List Byte)
  | some (.ipAddr ip) => .ok ip
  | some (.udpAddr _) =>
    .panics "interface conversion: net.Addr is *net.UDPAddr, not *net.IPAddr"
  | none => .panics "interface conversion: interface is nil, not *net.IPAddr"

/-- `sendUDPDiscard` (wol.go lines 61-88): resolve the destination, assert
the local address type, dial, parse the MAC, marshal, write once, and demand
exactly 102 bytes written. -/
def sendUDPDiscard (env : NetEnv) (mac : String) (broadcastAddr : List Byte)
    (localAddr : Option LocalAddr) : Outcome Unit × List Event :=
  match env.resolveUDPAddr (discardDest broadcastAddr) with
  | .error e => (.err e, [.resolveDest (discardDest broadcastAddr)])
  | .ok _ =>
    match assertUDPAddr localAddr with
    | .panics m => (.panics m, [.resolveDest (discardDest broadcastAddr)])
    | .err e => (.err e, [.resolveDest (discardDest broadcastAddr)])
    | .ok la =>
      match env.dialUDP la (discardDest broadcastAddr) with
      | .error e =>
        (.err e, [.resolveDest (discardDest broadcastAddr),
          .dialUDP (discardDest broadcastAddr)])
      | .ok _ =>
        match NewMagicPacket mac with
        | .error e =>
          (.err e, [.resolveDest (discardDest broadcastAddr),
            .dialUDP (discardDest broadcastAddr), .parseMAC mac])
        | .ok packet =>
          match env.writeUDP packet.Marshal with
          | .error e =>
            (.err e, [.resolveDest (discardDest broadcastAddr),
              .dialUDP (discardDest broadcastAddr), .parseMAC mac,
              .writeData packet.Marshal])
          | .ok n =>
            if n ≠ 102 then
              (.err (.shortWrite n 102),
                [.resolveDest (discardDest broadcastAddr),
                  .dialUDP (discardDest broadcastAddr), .parseMAC mac,
                  .writeData packet.Marshal])
            else
              (.ok (), [.resolveDest (discardDest broadcastAddr),
                .dialUDP (discardDest broadcastAddr), .parseMAC mac,
                .writeData packet.Marshal])

/-- `sendICMPEcho` (wol.go lines 91-127): assert the local address type, dial
raw ICMP, parse the MAC, marshal, write, set a 2-second read deadline, read,
and compare the reply with what was sent. -/
def sendICMPEcho (env : NetEnv) (mac : String) (broadcastAddr : List Byte)
    (localAddr : Option LocalAddr) : Outcome (List Byte) × List Event :=
  match assertIPAddr localAddr with
  | .panics m => (.panics m, [])
  | .err e => (.err e, [])
  | .ok la =>
    match env.dialIP la broadcastAddr with
    | .error e => (.err e, [.dialIP broadcastAddr])
    | .ok _ =>
      match NewMagicPacket mac with
      | .error e => (.err e, [.dialIP broadcastAddr, .parseMAC mac])
      | .ok packet =>
        match env.writeIP packet.Marshal with
        | .error e =>
          (.err e, [.dialIP broadcastAddr, .parseMAC mac,
            .writeData packet.Marshal])
        | .ok _ =>
          match env.readReply with
          | .error _ =>
            (.err .noEchoResponse,
              [.dialIP broadcastAddr, .parseMAC mac,
                .writeData packet.Marshal, .setDeadline 2, .readReply])
          | .ok reply =>
            if packet.Marshal = reply then
              (.ok reply,
                [.dialIP broadcastAddr, .parseMAC mac,
                  .writeData packet.Marshal, .setDeadline 2, .readReply])
            else
              (.err .echoMismatch,
                [.dialIP broadcastAddr, .parseMAC mac,
                  .writeData packet.Marshal, .setDeadline 2, .readReply])

/-- Lines 34-48 of `SendWithInterface`: with an empty interface name keep the
nil local address and `DefaultBroadcast`; otherwise resolve the interface
(wrapping failures) and compute the subnet broadcast. -/
def resolveTarget (env : NetEnv) (iface : String) :
    Outcome (Option LocalAddr × List Byte) × List Event :=
  if iface = "" then (.ok (none, DefaultBroadcast), [])
  else
    match ipFromInterface env.interfaces iface with
    | .error e =>
      (.err (.wrapped ("unable to get address for interface " ++ iface) e),
        [.resolveIface iface])
    | .ok ipnet =>
      match subnetBroadcastIP ipnet.ip ipnet.mask with
      | .ok bc => (.ok (some (.udpAddr ipnet.ip), bc), [.resolveIface iface])
      | .err e =>
        (.err (.wrapped
            ("unable to calculate broadcast address for interface " ++ iface) e),
          [.resolveIface iface])
      | .panics m => (.panics m, [.resolveIface iface])

/-- `SendWithInterface` (wol.go lines 33-58): resolve the target, then switch
on the protocol (`Discard` → UDP discard, `Echo` → ICMP echo, anything else
→ "unsupported protocol").  Returns the echo reply for the Echo protocol. -/
def SendWithInterface (env : NetEnv) (mac iface : String)
    (protocol : Protocol) : Outcome (Option (List Byte)) × List Event :=
  match resolveTarget env iface with
  | (.err e, t) => (.err e, t)
  | (.panics m, t) => (.panics m, t)
  | (.ok (localAddr, broadcastAddr), t) =>
    if protocol = Discard then
      match sendUDPDiscard env mac broadcastAddr localAddr with
      | (.ok _, t2) => (.ok none, t ++ t2)
      | (.err e, t2) => (.err e, t ++ t2)
      | (.panics m, t2) => (.panics m, t ++ t2)
    else if protocol = Echo then
      match sendICMPEcho env mac broadcastAddr localAddr with
      | (.ok reply, t2) => (.ok (some reply), t ++ t2)
      | (.err e, t2) => (.err e, t ++ t2)
      | (.panics m, t2) => (.panics m, t ++ t2)
    else
      (.err .unsupportedProtocol, t)

/-- `Send` (wol.go lines 25-28): `SendWithInterface(mac, "", Discard)`,
keeping only the error (a panic still propagates). -/
def Send (env : NetEnv) (mac : String) : Outcome Unit × List Event :=
  match SendWithInterface env mac "" Discard with
  | (.ok _, t) => (.ok (), t)
  | (.err e, t) => (.err e, t)
  | (.panics m, t) => (.panics m, t)

/-- A run in which every OS call succeeds: one interface `eth0` holding
`192.168.1.42/24`, sockets that open, a write that reports the full length,
and an echo reply equal to the canonical test packet. -/
def envOK : NetEnv :=
  ⟨[⟨"eth0", none, [.ipNet [192, 168, 1, 42] [255, 255, 255, 0]]⟩],
    fun _ => .ok (), fun _ _ => .ok (), fun data => .ok data.length,
    fun _ _ => .ok (), fun _ => .ok data102.length, .ok data102⟩
where
  data102 : List Byte := (MagicPacket.mk [0xAA, 0xBB, 0xCC, 0xDD, 0xEE, 0xFF]).Marshal

/-- Like `envOK` but the UDP write reports only 50 bytes written. -/
def envShort : NetEnv :=
  ⟨envOK.interfaces, envOK.resolveUDPAddr, envOK.dialUDP, fun _ => .ok 50,
    envOK.dialIP, envOK.writeIP, envOK.readReply⟩

/-- Like `envOK` but the echo read returns a reply different from any
102-byte magic packet. -/
def envMismatch : NetEnv :=
  ⟨envOK.interfaces, envOK.resolveUDPAddr, envOK.dialUDP, envOK.writeUDP,
    envOK.dialIP, envOK.writeIP, .ok [1, 2, 3]⟩

/-- Like `envOK` but the echo read times out. -/
def envTimeout : NetEnv :=
  ⟨envOK.interfaces, envOK.resolveUDPAddr, envOK.dialUDP, envOK.writeUDP,
    envOK.dialIP, envOK.writeIP, .error (.socketError "i/o timeout")⟩

/-- The OS interface table used by the C9 witness: an interface with no
addresses, a loopback-only interface, and one whose first qualifying entry
comes after a non-IPNet entry and a loopback entry. -/
def tblEx : List OSIface :=
  [⟨"empty0", none, []⟩,
    ⟨"lo", none, [.ipNet [127, 0, 0, 1] [255, 0, 0, 0]]⟩,
    ⟨"eth1", none,
      [.other, .ipNet [127, 0, 0, 1] [255, 0, 0, 0],
        .ipNet [10, 1, 2, 3] [255, 255, 0, 0]]⟩]

/-- `envOK` with the richer interface table `tblEx`. -/
def envTbl : NetEnv :=
  ⟨tblEx, envOK.resolveUDPAddr, envOK.dialUDP, envOK.writeUDP,
    envOK.dialIP, envOK.writeIP, envOK.readReply⟩

/-- The spec's broadcast formula (section 4.4), stated in its own words:
per-octet `(address AND mask) OR (NOT mask)`, with byte complement written
as xor with `0xFF`. -/
def specBroadcastFormula (a m : List Byte) : List Byte :=
  List.zipWith (fun x y => (x &&& y) ||| (y ^^^ 0xFF)) a m

theorem broadcastOctets_eq :
    ∀ a m : List Byte, a.length ≤ m.length →
      broadcastOctets a m = some (specBroadcastFormula a m) := by
  intro a
  induction a with
  | nil => intro m _; cases m <;> rfl
  | cons x xs ih =>
    intro m h
    cases m with
    | nil => simp at h
    | cons y ys =>
      have := ih ys (by simpa using h)
      simp [broadcastOctets, specBroadcastFormula, this]

theorem broadcastOctets_none :
    ∀ a m : List Byte, m.length < a.length → broadcastOctets a m = none := by
  intro a
  induction a with
  | nil => intro m h; simp at h
  | cons x xs ih =>
    intro m h
    cases m with
    | nil => rfl
    | cons y ys =>
      simp [broadcastOctets, ih ys (by simpa using h)]

theorem specBroadcastFormula_getD :
    ∀ (a m : List Byte) (i : Nat), i < a.length → i < m.length →
      (specBroadcastFormula a m).getD i 0
        = ((a.getD i 0) &&& (m.getD i 0)) ||| ((m.getD i 0) ^^^ 0xFF) := by
  intro a
  induction a with
  | nil => intro m i h _; simp at h
  | cons x xs ih =>
    intro m i h1 h2
    cases m with
    | nil => simp at h2
    | cons y ys =>
      cases i with
      | zero => rfl
      | succ j =>
        simpa [specBroadcastFormula] using
          ih ys j (by simpa using h1) (by simpa using h2)

theorem specBroadcastFormula_length (a m : List Byte) (h : a.length ≤ m.length) :
    (specBroadcastFormula a m).length = a.length := by
  simp [specBroadcastFormula, Nat.min_eq_left h]

/-- C3: for every address/mask pair of equal length, `subnetBroadcastIP`
computes each output octet `i` as `(address[i] AND mask[i]) OR (NOT mask[i])`
(byte complement written as xor `0xFF`), returns a result of the same length
as the address, and never returns an error; in particular address
`192.168.1.42` with mask `255.255.255.0` yields `192.168.1.255`. -/
theorem C3_subnetBroadcastIP_formula :
    (∀ a m : List Byte, a.length = m.length →
      subnetBroadcastIP a m = .ok (specBroadcastFormula a m)
      ∧ (specBroadcastFormula a m).length = a.length
      ∧ ∀ i : Nat, i < a.length →
          (specBroadcastFormula a m).getD i 0
            = ((a.getD i 0) &&& (m.getD i 0)) ||| ((m.getD i 0) ^^^ 0xFF))
  ∧ subnetBroadcastIP [192, 168, 1, 42] [255, 255, 255, 0]
      = .ok [192, 168, 1, 255] := by
  constructor
  · intro a m h
    refine ⟨?_, specBroadcastFormula_length a m (le_of_eq h), ?_⟩
    · simp [subnetBroadcastIP, broadcastOctets_eq a m (le_of_eq h)]
    · intro i hi
      exact specBroadcastFormula_getD a m i hi (h ▸ hi)
  · decide

/-- Witness for C3 at address `10.0.0.1`, mask `255.255.0.0`. -/
theorem C3_subnetBroadcastIP_formula_witness :
    subnetBroadcastIP [10, 0, 0, 1] [255, 255, 0, 0]
      = .ok (specBroadcastFormula [10, 0, 0, 1] [255, 255, 0, 0])
    ∧ (specBroadcastFormula [10, 0, 0, 1] [255, 255, 0, 0]).length = 4 :=
  ⟨(C3_subnetBroadcastIP_formula.1 [10, 0, 0, 1] [255, 255, 0, 0] (by decide)).1,
    (C3_subnetBroadcastIP_formula.1 [10, 0, 0, 1] [255, 255, 0, 0] (by decide)).2.1⟩

/-- C10: `subnetBroadcastIP` indexes the mask at every index of the IP, so
under the precondition `len(mask) >= len(ip)` it is total — it returns
normally (the Go function's error result is always nil) with a result the
same length as the IP — while inputs with the IP longer than the mask fall
outside the guarantee (they hit the index-range panic). -/
theorem C10_subnetBroadcastIP_bounds :
    (∀ ip mask : List Byte, ip.length ≤ mask.length →
      subnetBroadcastIP ip mask = .ok (specBroadcastFormula ip mask)
      ∧ (specBroadcastFormula ip mask).length = ip.length)
  ∧ (∀ ip mask : List Byte, mask.length < ip.length →
      subnetBroadcastIP ip mask = .panics "runtime error: index out of range") := by
  constructor
  · intro ip mask h
    exact ⟨by simp [subnetBroadcastIP, broadcastOctets_eq ip mask h],
      specBroadcastFormula_length ip mask h⟩
  · intro ip mask h
    simp [subnetBroadcastIP, broadcastOctets_none ip mask h]

/-- Witness for C10: a 4/4 pair is total; a 16-byte IP with a 4-byte mask
(the shape `ipFromInterface` can produce for an IPv4-mapped address) hits the
index panic. -/
theorem C10_subnetBroadcastIP_bounds_witness :
    subnetBroadcastIP [10, 0, 0, 1] [255, 0, 0, 0]
      = .ok (specBroadcastFormula [10, 0, 0, 1] [255, 0, 0, 0])
    ∧ subnetBroadcastIP (List.replicate 16 0) [255, 255, 255, 0]
        = .panics "runtime error: index out of range" :=
  ⟨(C10_subnetBroadcastIP_bounds.1 [10, 0, 0, 1] [255, 0, 0, 0] (by decide)).1,
    C10_subnetBroadcastIP_bounds.2 (List.replicate 16 0) [255, 255, 255, 0]
      (by decide)⟩

theorem length_flatten_replicate (n : Nat) (l : List Byte) :
    ((List.replicate n l).flatten).length = n * l.length := by
  induction n with
  | zero => simp
  | succ k ih => simp [List.replicate_succ, ih, Nat.succ_mul, Nat.add_comm]

theorem flatten_replicate_block :
    ∀ (n k : Nat) (l : List Byte), k < n →
      ((((List.replicate n l).flatten).drop (l.length * k)).take l.length) = l := by
  intro n
  induction n with
  | zero => intro k l h; omega
  | succ m ih =>
    intro k l h
    cases k with
    | zero =>
      simp [List.replicate_succ]
    | succ j =>
      have harith : l.length * (j + 1) = l.length + l.length * j := by ring
      rw [List.replicate_succ, List.flatten_cons, harith, List.drop_append]
      exact ih j l (by omega)

theorem pairBytes_length : ∀ l : List Nat, (pairBytes l).length = l.length / 2
  | [] => by simp [pairBytes]
  | [_] => by simp [pairBytes]
  | _ :: _ :: rest => by
    simp [pairBytes, pairBytes_length rest]
    omega

theorem marshal_length (mac : List Byte) (h : mac.length = 6) :
    (MagicPacket.Marshal ⟨mac⟩).length = 102 := by
  simp [MagicPacket.Marshal, length_flatten_replicate, h]

theorem parseMacAddress_length (s : String) (bs : List Byte)
    (hp : parseMacAddress s = .ok bs) : bs.length = 6 := by
  unfold parseMacAddress at hp
  cases hm : (s.data.filter (fun c => c != ':' && c != '-')).mapM hexVal with
  | none => rw [hm] at hp; exact absurd hp (by simp)
  | some ds =>
    rw [hm] at hp
    by_cases hl : ds.length = 12
    · simp only [hl, if_true] at hp
      have hbs : pairBytes ds = bs := by simpa using hp
      rw [← hbs, pairBytes_length ds, hl]
    · simp [hl] at hp

/-- C4: for every valid 6-byte MacAddress the encoded magic packet is exactly
102 bytes — six `0xFF` bytes followed by the MAC repeated 16 times (bytes
6-11, 12-17, ..., 96-101); the encoding is deterministic, and the full
`NewMagicPacket`-then-`Marshal` pipeline has no failure path once parsing
succeeds: any parsed packet has a 6-byte MAC and marshals to 102 bytes. -/
theorem C4_magic_packet_encoding :
    (∀ mac : List Byte, mac.length = 6 →
      (MagicPacket.mk mac).Marshal.length = 102
      ∧ (MagicPacket.mk mac).Marshal.take 6 = List.replicate 6 0xFF
      ∧ ∀ k : Nat, k < 16 →
          (((MagicPacket.mk mac).Marshal.drop (6 + 6 * k)).take 6) = mac)
  ∧ (∀ p q : MagicPacket, p.mac = q.mac → p.Marshal = q.Marshal)
  ∧ (∀ (s : String) (p : MagicPacket), NewMagicPacket s = .ok p →
      p.mac.length = 6 ∧ p.Marshal.length = 102) := by
  refine ⟨?_, ?_, ?_⟩
  · intro mac h
    refine ⟨marshal_length mac h, ?_, ?_⟩
    · show (List.replicate 6 0xFF ++ (List.replicate 16 mac).flatten).take 6
        = List.replicate 6 0xFF
      exact List.take_left' (by simp)
    · intro k hk
      show ((List.replicate 6 0xFF ++ (List.replicate 16 mac).flatten).drop
        (6 + 6 * k)).take 6 = mac
      rw [show (6 : Nat) + 6 * k
        = (List.replicate 6 (0xFF : Byte)).length + 6 * k by simp]
      rw [List.drop_append]
      have hb := flatten_replicate_block 16 k mac hk
      rw [h] at hb
      exact hb
  · intro p q h
    unfold MagicPacket.Marshal
    rw [h]
  · intro s p hp
    unfold NewMagicPacket at hp
    cases hm : parseMacAddress s with
    | error e => rw [hm] at hp; exact absurd hp (by simp)
    | ok bs =>
      rw [hm] at hp
      have hps : (⟨bs⟩ : MagicPacket) = p := by simpa using hp
      have h6 : bs.length = 6 := parseMacAddress_length s bs hm
      constructor
      · rw [← hps]; exact h6
      · rw [← hps]; exact marshal_length bs h6

/-- Witness for C4 at MAC `AA:BB:CC:DD:EE:FF`, checking the last repetition
(bytes 96-101). -/
theorem C4_magic_packet_encoding_witness :
    (MagicPacket.mk [0xAA, 0xBB, 0xCC, 0xDD, 0xEE, 0xFF]).Marshal.length = 102
  ∧ (MagicPacket.mk [0xAA, 0xBB, 0xCC, 0xDD, 0xEE, 0xFF]).Marshal.take 6
      = List.replicate 6 0xFF
  ∧ (((MagicPacket.mk [0xAA, 0xBB, 0xCC, 0xDD, 0xEE, 0xFF]).Marshal.drop
      (6 + 6 * 15)).take 6) = [0xAA, 0xBB, 0xCC, 0xDD, 0xEE, 0xFF] :=
  ⟨(C4_magic_packet_encoding.1 [0xAA, 0xBB, 0xCC, 0xDD, 0xEE, 0xFF] (by decide)).1,
    (C4_magic_packet_encoding.1 [0xAA, 0xBB, 0xCC, 0xDD, 0xEE, 0xFF] (by decide)).2.1,
    (C4_magic_packet_encoding.1 [0xAA, 0xBB, 0xCC, 0xDD, 0xEE, 0xFF]
      (by decide)).2.2 15 (by decide)⟩

/-- C1 (refuted — the code panics): with every OS call succeeding, `Send`
(and `SendWithInterface` with an empty interface name, either protocol)
aborts in the nil-interface type assertion `localAddr.(*net.UDPAddr)` /
`localAddr.(*net.IPAddr)` instead of returning, and an Echo send with a
resolving interface aborts because the local address was built as a
`*net.UDPAddr`. -/
theorem C1_local_addr_assertions_panic :
    (Send envOK "AA:BB:CC:DD:EE:FF").fst
      = .panics "interface conversion: interface is nil, not *net.UDPAddr"
  ∧ (SendWithInterface envOK "AA:BB:CC:DD:EE:FF" "" Discard).fst
      = .panics "interface conversion: interface is nil, not *net.UDPAddr"
  ∧ (SendWithInterface envOK "AA:BB:CC:DD:EE:FF" "eth0" Echo).fst
      = .panics "interface conversion: net.Addr is *net.UDPAddr, not *net.IPAddr"
  ∧ (SendWithInterface envOK "AA:BB:CC:DD:EE:FF" "" Echo).fst
      = .panics "interface conversion: interface is nil, not *net.IPAddr" :=
  ⟨by decide, by decide, by decide, by decide⟩

/-- C2 (counterexample): with a malformed MAC and an interface name that
fails to resolve, the returned error is the wrapped interface error, not the
MAC-format error; and with a resolving interface and a malformed MAC the
socket is dialed before the MAC is parsed. -/
theorem C2_interface_error_masks_mac_error :
    NewMagicPacket "ZZ:ZZ" = .error (.invalidAddressFormat "ZZ:ZZ")
  ∧ (SendWithInterface envOK "ZZ:ZZ" "ghost0" Discard).fst
      = .err (.wrapped "unable to get address for interface ghost0"
          (.interfaceNotFound "ghost0"))
  ∧ (SendWithInterface envOK "ZZ:ZZ" "ghost0" Discard).fst
      ≠ .err (.invalidAddressFormat "ZZ:ZZ")
  ∧ (SendWithInterface envOK "ZZ:ZZ" "eth0" Discard).snd
      = [.resolveIface "eth0", .resolveDest "192.168.1.255:9",
         .dialUDP "192.168.1.255:9", .parseMAC "ZZ:ZZ"] :=
  ⟨by decide, by decide, by decide, by decide⟩

/-- C2 (amended): `SendWithInterface` resolves the interface first and
dispatches afterwards; a failing interface resolution returns the wrapped
interface error no matter what the MAC string is, and on the Discard path
the destination is resolved and the socket dialed before the MAC is parsed
(every trace that reaches MAC parsing starts resolve-dial-parse). -/
theorem C2_resolve_then_dial_then_parse :
    (∀ (env : NetEnv) (mac iface : String) (protocol : Protocol) (e : GoError),
      iface ≠ "" →
      ipFromInterface env.interfaces iface = .error e →
      (SendWithInterface env mac iface protocol).fst
        = .err (.wrapped ("unable to get address for interface " ++ iface) e))
  ∧ (∀ (env : NetEnv) (mac : String) (bc : List Byte) (la : Option LocalAddr),
      Event.parseMAC mac ∈ (sendUDPDiscard env mac bc la).snd →
      ((sendUDPDiscard env mac bc la).snd).take 3
        = [.resolveDest (discardDest bc), .dialUDP (discardDest bc),
           .parseMAC mac]) := by
  constructor
  · intro env mac iface protocol e hif hres
    unfold SendWithInterface resolveTarget
    rw [if_neg hif, hres]
  · intro env mac bc la hmem
    unfold sendUDPDiscard at hmem ⊢
    cases hr : env.resolveUDPAddr (discardDest bc) with
    | error e => simp only [hr] at hmem; simp at hmem
    | ok u =>
      simp only [hr] at hmem ⊢
      cases ha : assertUDPAddr la with
      | panics m => simp only [ha] at hmem; simp at hmem
      | err e2 => simp only [ha] at hmem; simp at hmem
      | ok l =>
        simp only [ha] at hmem ⊢
        cases hd : env.dialUDP l (discardDest bc) with
        | error e3 => simp only [hd] at hmem; simp at hmem
        | ok u2 =>
          simp only [hd] at hmem ⊢
          cases hn : NewMagicPacket mac with
          | error e4 => simp only [hn]; rfl
          | ok p =>
            simp only [hn] at hmem ⊢
            cases hw : env.writeUDP p.Marshal with
            | error e5 => simp only [hw]; rfl
            | ok n =>
              simp only [hw]
              split <;> rfl

/-- Witness for the amended C2: the resolution failure dominates at a
concrete malformed MAC, and a concrete reached Discard dispatch shows the
resolve-dial-parse prefix. -/
theorem C2_resolve_then_dial_then_parse_witness :
    (SendWithInterface envOK "ZZ:ZZ" "ghost1" Discard).fst
      = .err (.wrapped "unable to get address for interface ghost1"
          (.interfaceNotFound "ghost1"))
  ∧ ((sendUDPDiscard envOK "AA:BB:CC:DD:EE:FF" [255, 255, 255, 255]
        (some (.udpAddr [192, 168, 1, 42]))).snd).take 3
      = [.resolveDest "255.255.255.255:9", .dialUDP "255.255.255.255:9",
         .parseMAC "AA:BB:CC:DD:EE:FF"] := by
  constructor
  · exact C2_resolve_then_dial_then_parse.1 envOK "ZZ:ZZ" "ghost1" Discard
      (.interfaceNotFound "ghost1") (by decide) (by decide)
  · have h := C2_resolve_then_dial_then_parse.2 envOK "AA:BB:CC:DD:EE:FF"
      [255, 255, 255, 255] (some (.udpAddr [192, 168, 1, 42])) (by decide)
    have hd : discardDest [255, 255, 255, 255] = "255.255.255.255:9" := by decide
    rw [hd] at h
    exact h

/-- Recognizes socket-write events in a trace. -/
def isWrite : Event → Bool
  | .writeData _ => true
  | _ => false

theorem sendUDPDiscard_head (env : NetEnv) (mac : String) (bc : List Byte)
    (la : Option LocalAddr) :
    ((sendUDPDiscard env mac bc la).snd).head?
      = some (.resolveDest (discardDest bc)) := by
  unfold sendUDPDiscard
  cases hr : env.resolveUDPAddr (discardDest bc) with
  | error e => rfl
  | ok u =>
    simp only [hr]
    cases ha : assertUDPAddr la with
    | panics m => rfl
    | err e2 => rfl
    | ok l =>
      simp only [ha]
      cases hd : env.dialUDP l (discardDest bc) with
      | error e3 => rfl
      | ok u2 =>
        simp only [hd]
        cases hn : NewMagicPacket mac with
        | error e4 => rfl
        | ok p =>
          simp only [hn]
          cases hw : env.writeUDP p.Marshal with
          | error e5 => rfl
          | ok n =>
            simp only [hw]
            split <;> rfl

theorem SendWithInterface_empty_discard (env : NetEnv) (mac : String) :
    SendWithInterface env mac "" Discard
      = (match sendUDPDiscard env mac DefaultBroadcast none with
          | (.ok _, t2) => (.ok none, t2)
          | (.err e, t2) => (.err e, t2)
          | (.panics m, t2) => (.panics m, t2)) := by
  unfold SendWithInterface resolveTarget
  rcases hsd : sendUDPDiscard env mac DefaultBroadcast none with ⟨o, t⟩
  cases o <;> simp [hsd]

theorem Send_snd (env : NetEnv) (mac : String) :
    (Send env mac).snd = (SendWithInterface env mac "" Discard).snd := by
  unfold Send
  rcases h : SendWithInterface env mac "" Discard with ⟨o, t⟩
  cases o <;> rfl

/-- C5: with an empty interface name, the target resolved by
`SendWithInterface` (and hence by `Send`) is the fixed global broadcast
`DefaultBroadcast = 255.255.255.255` with a nil local address, and the
Discard dispatch addresses `255.255.255.255:9` — `DefaultPort` being 9 — as
the first thing it does. -/
theorem C5_empty_iface_global_broadcast_port9 :
    DefaultBroadcast = [255, 255, 255, 255]
  ∧ DefaultPort = 9
  ∧ (∀ env : NetEnv, (resolveTarget env "").fst = .ok (none, DefaultBroadcast))
  ∧ (∀ (env : NetEnv) (mac : String),
      ((SendWithInterface env mac "" Discard).snd).head?
        = some (.resolveDest "255.255.255.255:9"))
  ∧ (∀ (env : NetEnv) (mac : String),
      ((Send env mac).snd).head? = some (.resolveDest "255.255.255.255:9")) := by
  have hswi : ∀ (env : NetEnv) (mac : String),
      ((SendWithInterface env mac "" Discard).snd).head?
        = some (.resolveDest "255.255.255.255:9") := by
    intro env mac
    have h := sendUDPDiscard_head env mac DefaultBroadcast none
    have hs : discardDest DefaultBroadcast = "255.255.255.255:9" := by decide
    rw [hs] at h
    rw [SendWithInterface_empty_discard]
    rcases hsd : sendUDPDiscard env mac DefaultBroadcast none with ⟨o, t⟩
    rw [hsd] at h
    cases o <;> exact h
  refine ⟨rfl, rfl, fun env => rfl, hswi, ?_⟩
  intro env mac
  rw [Send_snd]
  exact hswi env mac

/-- C6: a Discard send writes at most once in every run and exactly once in
any run that reaches the write; it succeeds iff the write reports no error
and exactly 102 bytes, fails with `ShortWrite` (carrying actual and expected
counts) when the count differs, and propagates a write error. -/
theorem C6_discard_write_once_102 :
    (∀ (env : NetEnv) (mac : String) (bc : List Byte) (la : Option LocalAddr),
      ((sendUDPDiscard env mac bc la).snd).countP isWrite ≤ 1)
  ∧ (∀ (env : NetEnv) (mac : String) (bc : List Byte) (la : Option LocalAddr)
        (l : List Byte) (p : MagicPacket),
      env.resolveUDPAddr (discardDest bc) = .ok () →
      assertUDPAddr la = .ok l →
      env.dialUDP l (discardDest bc) = .ok () →
      NewMagicPacket mac = .ok p →
      ((sendUDPDiscard env mac bc la).snd).countP isWrite = 1
      ∧ Event.writeData p.Marshal ∈ (sendUDPDiscard env mac bc la).snd
      ∧ (∀ n : Nat, env.writeUDP p.Marshal = .ok n →
          ((sendUDPDiscard env mac bc la).fst = .ok () ↔ n = 102)
          ∧ (n ≠ 102 →
            (sendUDPDiscard env mac bc la).fst = .err (.shortWrite n 102)))
      ∧ (∀ e : GoError, env.writeUDP p.Marshal = .error e →
          (sendUDPDiscard env mac bc la).fst = .err e)) := by
  constructor
  · intro env mac bc la
    unfold sendUDPDiscard
    cases hr : env.resolveUDPAddr (discardDest bc) with
    | error e => simp [List.countP_cons, List.countP_nil, isWrite]
    | ok u =>
      simp only [hr]
      cases ha : assertUDPAddr la with
      | panics m => simp [List.countP_cons, List.countP_nil, isWrite]
      | err e2 => simp [List.countP_cons, List.countP_nil, isWrite]
      | ok l =>
        simp only [ha]
        cases hd : env.dialUDP l (discardDest bc) with
        | error e3 => simp [List.countP_cons, List.countP_nil, isWrite]
        | ok u2 =>
          simp only [hd]
          cases hn : NewMagicPacket mac with
          | error e4 => simp [List.countP_cons, List.countP_nil, isWrite]
          | ok p =>
            simp only [hn]
            cases hw : env.writeUDP p.Marshal with
            | error e5 => simp [List.countP_cons, List.countP_nil, isWrite]
            | ok n =>
              simp only [hw]
              split <;> simp [List.countP_cons, List.countP_nil, isWrite]
  · intro env mac bc la l p h1 h2 h3 h4
    unfold sendUDPDiscard
    simp only [h1, h2, h3, h4]
    refine ⟨?_, ?_, ?_, ?_⟩
    · cases hw : env.writeUDP p.Marshal with
      | error e => simp [List.countP_cons, List.countP_nil, isWrite]
      | ok n =>
        simp only [hw]
        split <;> simp [List.countP_cons, List.countP_nil, isWrite]
    · cases hw : env.writeUDP p.Marshal with
      | error e => simp
      | ok n =>
        simp only [hw]
        split <;> simp
    · intro n hw
      simp only [hw]
      by_cases h102 : n = 102
      · subst h102
        simp
      · constructor
        · rw [if_pos h102]
          simp [h102]
        · intro _
          rw [if_pos h102]
    · intro e hw
      simp only [hw]

/-- Witness for C6: a full-length write succeeds, a 50-byte write fails with
`ShortWrite 50 102`, and the trace holds exactly one write. -/
theorem C6_discard_write_once_102_witness :
    (sendUDPDiscard envOK "AA:BB:CC:DD:EE:FF" [255, 255, 255, 255]
        (some (.udpAddr [192, 168, 1, 42]))).fst = .ok ()
  ∧ (sendUDPDiscard envShort "AA:BB:CC:DD:EE:FF" [255, 255, 255, 255]
        (some (.udpAddr [192, 168, 1, 42]))).fst = .err (.shortWrite 50 102)
  ∧ ((sendUDPDiscard envOK "AA:BB:CC:DD:EE:FF" [255, 255, 255, 255]
        (some (.udpAddr [192, 168, 1, 42]))).snd).countP isWrite = 1 := by
  have hOK := C6_discard_write_once_102.2 envOK "AA:BB:CC:DD:EE:FF"
    [255, 255, 255, 255] (some (.udpAddr [192, 168, 1, 42])) [192, 168, 1, 42]
    ⟨[0xAA, 0xBB, 0xCC, 0xDD, 0xEE, 0xFF]⟩ rfl rfl rfl (by decide)
  have hS := C6_discard_write_once_102.2 envShort "AA:BB:CC:DD:EE:FF"
    [255, 255, 255, 255] (some (.udpAddr [192, 168, 1, 42])) [192, 168, 1, 42]
    ⟨[0xAA, 0xBB, 0xCC, 0xDD, 0xEE, 0xFF]⟩ rfl rfl rfl (by decide)
  refine ⟨?_, ?_, hOK.1⟩
  · exact (hOK.2.2.1 102 (by decide)).1.mpr rfl
  · exact (hS.2.2.1 50 (by decide)).2 (by decide)

/-- C7: an Echo send returns success only with the exact bytes that were
sent (the marshalled packet), and a received reply that differs from the
sent packet yields the `EchoMismatch` error, never success. -/
theorem C7_echo_reply_must_match :
    (∀ (env : NetEnv) (mac : String) (bc : List Byte) (la : Option LocalAddr)
        (bytes : List Byte),
      (sendICMPEcho env mac bc la).fst = .ok bytes →
      ∃ p : MagicPacket, NewMagicPacket mac = .ok p ∧ bytes = p.Marshal)
  ∧ (∀ (env : NetEnv) (mac : String) (bc : List Byte) (la : Option LocalAddr)
        (l : List Byte) (p : MagicPacket) (n : Nat) (reply : List Byte),
      assertIPAddr la = .ok l →
      env.dialIP l bc = .ok () →
      NewMagicPacket mac = .ok p →
      env.writeIP p.Marshal = .ok n →
      env.readReply = .ok reply →
      reply ≠ p.Marshal →
      (sendICMPEcho env mac bc la).fst = .err .echoMismatch) := by
  constructor
  · intro env mac bc la bytes h
    unfold sendICMPEcho at h
    cases ha : assertIPAddr la with
    | panics m => simp only [ha] at h; simp at h
    | err e => simp only [ha] at h; simp at h
    | ok l =>
      simp only [ha] at h
      cases hd : env.dialIP l bc with
      | error e => simp only [hd] at h; simp at h
      | ok u =>
        simp only [hd] at h
        cases hn : NewMagicPacket mac with
        | error e => simp only [hn] at h; simp at h
        | ok p =>
          simp only [hn] at h
          cases hw : env.writeIP p.Marshal with
          | error e => simp only [hw] at h; simp at h
          | ok n =>
            simp only [hw] at h
            cases hr : env.readReply with
            | error e => simp only [hr] at h; simp at h
            | ok reply =>
              simp only [hr] at h
              by_cases he : p.Marshal = reply
              · rw [if_pos he] at h
                simp at h
                exact ⟨p, rfl, by rw [← h, ← he]⟩
              · rw [if_neg he] at h
                simp at h
  · intro env mac bc la l p n reply h1 h2 h3 h4 h5 h6
    unfold sendICMPEcho
    simp only [h1, h2, h3, h4, h5]
    rw [if_neg (fun he => h6 he.symm)]

/-- Witness for C7: a 3-byte reply makes the echo send fail with
`EchoMismatch`. -/
theorem C7_echo_reply_must_match_witness :
    (sendICMPEcho envMismatch "AA:BB:CC:DD:EE:FF" [192, 168, 1, 255]
        (some (.ipAddr [192, 168, 1, 42]))).fst = .err .echoMismatch :=
  C7_echo_reply_must_match.2 envMismatch "AA:BB:CC:DD:EE:FF" [192, 168, 1, 255]
    (some (.ipAddr [192, 168, 1, 42])) [192, 168, 1, 42]
    ⟨[0xAA, 0xBB, 0xCC, 0xDD, 0xEE, 0xFF]⟩ 102 [1, 2, 3]
    rfl rfl (by decide) (by decide) rfl (by decide)

/-- C8: every Echo run that reaches the read sets the fixed 2-second
deadline immediately before it (the trace ends `... setDeadline 2,
readReply`), and a read that errors — in particular a deadline expiry —
makes the send fail with `NoEchoResponse`, not hang or succeed. -/
theorem C8_echo_read_deadline :
    (∀ (env : NetEnv) (mac : String) (bc : List Byte) (la : Option LocalAddr),
      Event.readReply ∈ (sendICMPEcho env mac bc la).snd →
      ∃ p : MagicPacket, NewMagicPacket mac = .ok p ∧
        (sendICMPEcho env mac bc la).snd
          = [.dialIP bc, .parseMAC mac, .writeData p.Marshal,
             .setDeadline 2, .readReply])
  ∧ (∀ (env : NetEnv) (mac : String) (bc : List Byte) (la : Option LocalAddr)
        (l : List Byte) (p : MagicPacket) (n : Nat) (e : GoError),
      assertIPAddr la = .ok l →
      env.dialIP l bc = .ok () →
      NewMagicPacket mac = .ok p →
      env.writeIP p.Marshal = .ok n →
      env.readReply = .error e →
      (sendICMPEcho env mac bc la).fst = .err .noEchoResponse) := by
  constructor
  · intro env mac bc la hmem
    unfold sendICMPEcho at hmem ⊢
    cases ha : assertIPAddr la with
    | panics m => simp only [ha] at hmem; simp at hmem
    | err e => simp only [ha] at hmem; simp at hmem
    | ok l =>
      simp only [ha] at hmem ⊢
      cases hd : env.dialIP l bc with
      | error e => simp only [hd] at hmem; simp at hmem
      | ok u =>
        simp only [hd] at hmem ⊢
        cases hn : NewMagicPacket mac with
        | error e => simp only [hn] at hmem; simp at hmem
        | ok p =>
          simp only [hn] at hmem ⊢
          cases hw : env.writeIP p.Marshal with
          | error e => simp only [hw] at hmem; simp at hmem
          | ok n =>
            simp only [hw] at hmem ⊢
            cases hr : env.readReply with
            | error e => exact ⟨p, rfl, by simp only [hr]⟩
            | ok reply =>
              refine ⟨p, rfl, ?_⟩
              simp only [hr]
              split <;> rfl
  · intro env mac bc la l p n e h1 h2 h3 h4 h5
    unfold sendICMPEcho
    simp only [h1, h2, h3, h4, h5]

/-- Witness for C8: a timed-out read yields `NoEchoResponse`. -/
theorem C8_echo_read_deadline_witness :
    (sendICMPEcho envTimeout "AA:BB:CC:DD:EE:FF" [192, 168, 1, 255]
        (some (.ipAddr [192, 168, 1, 42]))).fst = .err .noEchoResponse :=
  C8_echo_read_deadline.2 envTimeout "AA:BB:CC:DD:EE:FF" [192, 168, 1, 255]
    (some (.ipAddr [192, 168, 1, 42])) [192, 168, 1, 42]
    ⟨[0xAA, 0xBB, 0xCC, 0xDD, 0xEE, 0xFF]⟩ 102 (.socketError "i/o timeout")
    rfl rfl (by decide) (by decide) rfl

/-- C9: a name matching no interface makes `ipFromInterface` fail with
`InterfaceNotFound` and makes `SendWithInterface` return that wrapped error
(no silent fallback to the global broadcast); a successful resolution
returns the first entry of the OS list that is a non-loopback IPv4 address;
an erroring-or-empty address list yields `NoAddressForInterface`; a
non-empty list with no qualifying entry yields `NoIPv4Address`. -/
theorem C9_interface_resolution_errors :
    (∀ (env : NetEnv) (mac ifname : String) (protocol : Protocol),
      ifname ≠ "" →
      (∀ i ∈ env.interfaces, i.ifaceName ≠ ifname) →
      ipFromInterface env.interfaces ifname
          = .error (.interfaceNotFound ifname)
      ∧ (SendWithInterface env mac ifname protocol).fst
          = .err (.wrapped ("unable to get address for interface " ++ ifname)
              (.interfaceNotFound ifname)))
  ∧ (∀ (tbl : List OSIface) (ifname : String) (ip mask : List Byte),
      ipFromInterface tbl ifname = .ok ⟨ip, mask⟩ →
      isLoopback ip = false ∧ (to4 ip).isSome = true
      ∧ ∃ ifc, tbl.find? (fun i => i.ifaceName == ifname) = some ifc
          ∧ ∃ l₁ l₂, ifc.addrs = l₁ ++ .ipNet ip mask :: l₂
            ∧ ∀ a ∈ l₁, qualifiesIPv4 a = false)
  ∧ (∀ (tbl : List OSIface) (ifname : String) (ifc : OSIface),
      tbl.find? (fun i => i.ifaceName == ifname) = some ifc →
      ifc.addrsErr = none → ifc.addrs = [] →
      ipFromInterface tbl ifname
        = .error (.noAddressForInterface ifc.ifaceName))
  ∧ (∀ (tbl : List OSIface) (ifname : String) (ifc : OSIface),
      tbl.find? (fun i => i.ifaceName == ifname) = some ifc →
      ifc.addrsErr = none → ifc.addrs ≠ [] →
      (∀ a ∈ ifc.addrs, qualifiesIPv4 a = false) →
      ipFromInterface tbl ifname = .error (.noIPv4Address ifc.ifaceName)) := by
  refine ⟨?_, ?_, ?_, ?_⟩
  · intro env mac ifname protocol hne hnot
    have hfind : env.interfaces.find? (fun i => i.ifaceName == ifname) = none := by
      rw [List.find?_eq_none]
      intro i hi
      simpa using hnot i hi
    have hip : ipFromInterface env.interfaces ifname
        = .error (.interfaceNotFound ifname) := by
      unfold ipFromInterface
      simp only [hfind]
    refine ⟨hip, ?_⟩
    unfold SendWithInterface resolveTarget
    rw [if_neg hne, hip]
  · intro tbl ifname ip mask h
    unfold ipFromInterface at h
    cases hfind : tbl.find? (fun i => i.ifaceName == ifname) with
    | none => simp only [hfind] at h; simp at h
    | some ifc =>
      simp only [hfind] at h
      by_cases hcond : (ifc.addrsErr.isSome || ifc.addrs.isEmpty) = true
      · rw [if_pos hcond] at h; simp at h
      · rw [if_neg hcond] at h
        cases hfq : ifc.addrs.find? qualifiesIPv4 with
        | none => simp only [hfq] at h; simp at h
        | some a =>
          simp only [hfq] at h
          cases a with
          | other => simp at h
          | ipNet ip2 mask2 =>
            simp only [Except.ok.injEq, IPNet.mk.injEq] at h
            obtain ⟨rfl, rfl⟩ := h
            obtain ⟨hqa, as, bs, hdecomp, hprev⟩ := List.find?_eq_some.mp hfq
            have hq : isLoopback ip2 = false ∧ (to4 ip2).isSome = true := by
              simpa [qualifiesIPv4] using hqa
            refine ⟨hq.1, hq.2, ifc, rfl, as, bs, hdecomp, ?_⟩
            intro a hai
            simpa using hprev a hai
  · intro tbl ifname ifc hfind herrnone hempty
    unfold ipFromInterface
    simp only [hfind]
    rw [if_pos (by simp [herrnone, hempty])]
  · intro tbl ifname ifc hfind herrnone hnonempty hall
    have hfq : ifc.addrs.find? qualifiesIPv4 = none := by
      rw [List.find?_eq_none]
      intro a ha
      simp [hall a ha]
    unfold ipFromInterface
    simp only [hfind]
    rw [if_neg (by simp [herrnone, List.isEmpty_eq_true, hnonempty])]
    simp only [hfq]

/-- Witness for C9: a ghost name yields the wrapped `InterfaceNotFound`; an
addressless interface yields `NoAddressForInterface`; a loopback-only
interface yields `NoIPv4Address`; the address picked on `eth1` of the
example table is not loopback. -/
theorem C9_interface_resolution_errors_witness :
    (SendWithInterface envTbl "AA:BB:CC:DD:EE:FF" "ghost" Discard).fst
      = .err (.wrapped "unable to get address for interface ghost"
          (.interfaceNotFound "ghost"))
  ∧ ipFromInterface tblEx "empty0" = .error (.noAddressForInterface "empty0")
  ∧ ipFromInterface tblEx "lo" = .error (.noIPv4Address "lo")
  ∧ isLoopback [10, 1, 2, 3] = false := by
  refine ⟨?_, ?_, ?_, ?_⟩
  · exact (C9_interface_resolution_errors.1 envTbl "AA:BB:CC:DD:EE:FF" "ghost"
      Discard (by decide) (by decide)).2
  · exact C9_interface_resolution_errors.2.2.1 tblEx "empty0"
      ⟨"empty0", none, []⟩ (by decide) rfl rfl
  · exact C9_interface_resolution_errors.2.2.2 tblEx "lo"
      ⟨"lo", none, [.ipNet [127, 0, 0, 1] [255, 0, 0, 0]]⟩ (by decide) rfl
      (by decide) (by decide)
  · exact (C9_interface_resolution_errors.2.1 tblEx "eth1" [10, 1, 2, 3]
      [255, 255, 0, 0] (by decide)).1

end GoWake
